import Mathlib

/-!
Shallow embedding of `src/crates_io_smoke_test/src/main.rs`.

The program is a single linear pipeline: parse options, GET the crate summary
from staging.crates.io, optionally scaffold and `cargo publish` a new patch
version, then GET the version detail and compare name and version.  We model
the outside world (HTTP responses, subprocess exit statuses, the temporary
directory path handed out by the OS) as an `Env` record, and `main` as a pure
function from `Options` and `Env` to an outcome together with a trace of
side-effect events and the emitted log lines.
-/

namespace SmokeTest

/-- A pre-release / build-metadata identifier, as in the `semver` crate:
either a purely numeric identifier or an alphanumeric one. -/
inductive Ident where
  | num (n : Nat)
  | alphanum (s : String)
deriving DecidableEq

/-- `semver::Version`: major/minor/patch are `u64` (we use `Nat` and carry the
`≤ u64Max` bound as a hypothesis where it matters), plus optional pre-release
and build-metadata identifier lists. -/
structure Version where
  major : Nat
  minor : Nat
  patch : Nat
  pre : List Ident
  build : List Ident
deriving DecidableEq

/-- Largest value of a `u64`. -/
def u64Max : Nat := 2 ^ 64 - 1

/-- Comparison of `u64` components (the `Ord` instance on `u64`). -/
def natCompare (a b : Nat) : Ordering :=
  if a < b then Ordering.lt else if b < a then Ordering.gt else Ordering.eq

/-- Comparison of single pre-release identifiers (semver precedence rules):
numeric identifiers compare numerically and rank below alphanumeric ones;
alphanumeric identifiers compare lexically. -/
def identCompare : Ident → Ident → Ordering
  | Ident.num a, Ident.num b => natCompare a b
  | Ident.num _, Ident.alphanum _ => Ordering.lt
  | Ident.alphanum _, Ident.num _ => Ordering.gt
  | Ident.alphanum a, Ident.alphanum b => compare a b

/-- Lexicographic comparison of identifier lists; a strict prefix ranks lower. -/
def identListCompare : List Ident → List Ident → Ordering
  | [], [] => Ordering.eq
  | [], _ :: _ => Ordering.lt
  | _ :: _, [] => Ordering.gt
  | a :: as, b :: bs =>
    match identCompare a b with
    | Ordering.eq => identListCompare as bs
    | o => o

/-- Pre-release comparison: a version without pre-release ranks above one with
a pre-release; two non-empty pre-release lists compare lexicographically. -/
def preCompare : List Ident → List Ident → Ordering
  | [], [] => Ordering.eq
  | [], _ :: _ => Ordering.gt
  | _ :: _, [] => Ordering.lt
  | a, b => identListCompare a b

/-- The total order on `semver::Version`: major, then minor, then patch, then
pre-release precedence, with build metadata as the final tie-breaker (the
`semver` crate includes build metadata in its `Ord` so that it agrees with
`Eq`). -/
def versionCompare (a b : Version) : Ordering :=
  match natCompare a.major b.major with
  | Ordering.eq =>
    match natCompare a.minor b.minor with
    | Ordering.eq =>
      match natCompare a.patch b.patch with
      | Ordering.eq =>
        match preCompare a.pre b.pre with
        | Ordering.eq => identListCompare a.build b.build
        | o => o
      | o => o
    | o => o
  | o => o

/-- `a < b` in semver ordering. -/
def versionLt (a b : Version) : Prop := versionCompare a b = Ordering.lt

/-- Display of one identifier. -/
def identStr : Ident → String
  | Ident.num n => toString n
  | Ident.alphanum s => s

/-- Dot-separated rendering of an identifier list. -/
def dotted : List Ident → String
  | [] => ""
  | [i] => identStr i
  | i :: is => identStr i ++ "." ++ dotted is

/-- `Display` of `semver::Version`: `major.minor.patch`, then `-pre` if the
pre-release list is non-empty, then `+build` if build metadata is present. -/
def versionStr (v : Version) : String :=
  toString v.major ++ "." ++ toString v.minor ++ "." ++ toString v.patch ++
    (if v.pre = [] then "" else "-" ++ dotted v.pre) ++
    (if v.build = [] then "" else "+" ++ dotted v.build)

/-- Embeds `new_version.patch += 1` (line 80 of `main.rs`).  `patch` is a
`u64` and the addition is unchecked: when `patch = u64::MAX` the addition
overflows (an arithmetic-overflow panic under debug assertions), which we
model as `none`; otherwise the patch is incremented with everything else
unchanged. -/
def bumpPatch (v : Version) : Option Version :=
  if v.patch < u64Max then
    some (Version.mk v.major v.minor (v.patch + 1) v.pre v.build)
  else
    none

/-- The parsed command-line options (struct `Options` in `main.rs`).  The
`token` field is a `SecretString` in the source; here it is the secret's
value. -/
structure Options where
  crate_name : String
  token : String
  skip_publish : Bool
deriving DecidableEq

/-- The `crate` object of the crate-summary response (struct `Crate`). -/
structure Crate where
  max_version : Version
deriving DecidableEq

/-- The crate-summary response envelope (struct `CrateResponse`; the JSON
field `crate` is deserialized into `krate`). -/
structure CrateResponse where
  krate : Crate
deriving DecidableEq

/-- The `version` object of the version-detail response (struct `Version` in
`main.rs`; the JSON field `crate` is deserialized into `krate`). -/
structure VersionData where
  krate : String
  num : Version
deriving DecidableEq

/-- The version-detail response envelope (struct `VersionResponse`). -/
structure VersionResponse where
  version : VersionData
deriving DecidableEq

/-- Outcome of one HTTP fetch: `send()` can fail (transport error),
`error_for_status()` can fail (non-success HTTP status), `json()` can fail
(JSON shape mismatch), or a payload is produced. -/
inductive FetchOutcome (α : Type) where
  | transportErr
  | statusErr
  | jsonErr
  | ok (val : α)
deriving DecidableEq

/-- The external world for one run: the two HTTP responses, the path of the
temporary directory the OS hands out, and the exit status (`true` = success)
of each fallible local step. -/
structure Env where
  preFetch : FetchOutcome CrateResponse
  tempdirPath : String
  cargoNewOk : Bool
  manifestWriteOk : Bool
  readmeWriteOk : Bool
  cargoPublishOk : Bool
  postFetch : FetchOutcome VersionResponse
deriving DecidableEq

/-- The kind of underlying error that an `anyhow` context wraps.  The cause is
kept in the error chain and rendered below the context message. -/
inductive ErrCause where
  | transport
  | httpStatus
  | jsonShape
  | ioErr
deriving DecidableEq

/-- An `anyhow::Error`: either a context message wrapped around an underlying
cause (`.context(...)`) or a bare message (`anyhow!(...)`). -/
inductive Error where
  | context (msg : String) (cause : ErrCause)
  | bare (msg : String)
deriving DecidableEq

/-- Rendering of the underlying cause, modelled from the `Display` output of
the corresponding `reqwest` / `serde_json` / `std::io` error values (the
transport, HTTP-status and body-decoding errors of `reqwest` print pairwise
different messages). -/
def causeStr : ErrCause → String
  | ErrCause.transport => "error sending request"
  | ErrCause.httpStatus => "HTTP status client error"
  | ErrCause.jsonShape => "error decoding response body"
  | ErrCause.ioErr => "I/O error"

/-- The error message surfaced to the user: `anyhow`'s report prints the
outermost context followed by the chain of causes. -/
def errorMessage : Error → String
  | Error.context msg c => msg ++ "\n\nCaused by:\n    " ++ causeStr c
  | Error.bare msg => msg

/-- Side-effect events of one run, in order. -/
inductive Event where
  | getCrateInfo (url : String)
  | createTempDir
  | runCargoNew (crateName : String)
  | writeManifest (content : String)
  | writeReadme (content : String)
  | runCargoPublish (tokenEnvValue : String)
  | removeTempDir
  | getVersionInfo (url : String)
deriving DecidableEq

/-- Replaces the secret payload of a `runCargoPublish` event by a fixed
placeholder; used to state that the token influences nothing else. -/
def scrubToken : Event → Event
  | Event.runCargoPublish _ => Event.runCargoPublish ""
  | e => e

/-- Process outcome: exit status 0, an error return from `main` (non-zero
exit, message printed), or an abort by a panic. -/
inductive Outcome where
  | ok
  | err (e : Error)
  | panicked (msg : String)
deriving DecidableEq

/-- Result of one run: the process outcome, the ordered side-effect trace and
the emitted log lines. -/
structure RunResult where
  result : Outcome
  events : List Event
  logs : List String
deriving DecidableEq

/-- URL of the pre-check GET (line 45 of `main.rs`). -/
def preUrl (o : Options) : String :=
  "https://staging.crates.io/api/v1/crates/" ++ o.crate_name ++ "?include=versions"

/-- URL of the post-check GET (line 164 of `main.rs`). -/
def postUrl (o : Options) (v : Version) : String :=
  "https://staging.crates.io/api/v1/crates/" ++ o.crate_name ++ "/" ++ versionStr v

/-- The generated `Cargo.toml` content (the format string at lines 108-115 of
`main.rs`). -/
def manifestContent (name : String) (v : Version) : String :=
  "[package]\nname = \"" ++ name ++ "\"\nversion = \"" ++ versionStr v ++
    "\"\nedition = \"2018\"\nlicense = \"MIT\"\ndescription = \"test crate\"\n"

/-- The generated `README.md` content (lines 130-133 of `main.rs`). -/
def readmeContent (name : String) (v : Version) : String :=
  "# " ++ name ++ " v" ++ versionStr v ++
    "\n\n![](https://media1.giphy.com/media/Ju7l5y9osyymQ/200.gif)\n"

/-- The crate-name mismatch error message (lines 195-199 of `main.rs`). -/
def crateNameMismatchMsg (expected found : String) : String :=
  "API returned an unexpected crate name; expected `" ++ expected ++
    "` found `" ++ found ++ "`"

/-- The version mismatch error message (lines 203-209 of `main.rs`); both
versions are rendered with `Display`. -/
def versionMismatchMsg (expected found : Version) : String :=
  "API returned an unexpected version number; expected `" ++ versionStr expected ++
    "` found `" ++ versionStr found ++ "`"

/-- The `debug!(?options)` log line.  `Options` derives `Debug`, and the
`secrecy::SecretString` field renders as a redaction marker, never as the
token's value. -/
def optionsDebugStr (o : Options) : String :=
  "Options \x7b crate_name: \"" ++ o.crate_name ++
    "\", token: SecretBox<str>([REDACTED]), skip_publish: " ++
    (if o.skip_publish then "true" else "false") ++ " \x7d"

/-- The `debug!(?json)` line after the pre-check (rendering approximated). -/
def crateResponseDebugStr (j : CrateResponse) : String :=
  "CrateResponse: max_version=" ++ versionStr j.krate.max_version

/-- The `debug!(?json)` line after the post-check (rendering approximated). -/
def versionResponseDebugStr (j : VersionResponse) : String :=
  "VersionResponse: crate=" ++ j.version.krate ++ " num=" ++ versionStr j.version.num

/-- The pre-check fetch (lines 51-71 of `main.rs`): each failure mode is
wrapped with its own `.context(...)` message; `send()` and
`error_for_status()` share a context string but wrap different causes. -/
def fetchCrateInfo : FetchOutcome CrateResponse → Except Error CrateResponse
  | FetchOutcome.transportErr =>
    Except.error (Error.context "Failed to load crate information from staging.crates.io" ErrCause.transport)
  | FetchOutcome.statusErr =>
    Except.error (Error.context "Failed to load crate information from staging.crates.io" ErrCause.httpStatus)
  | FetchOutcome.jsonErr =>
    Except.error (Error.context "Failed to deserialize crate information" ErrCause.jsonShape)
  | FetchOutcome.ok j => Except.ok j

/-- The post-check fetch (lines 168-192 of `main.rs`). -/
def fetchVersionInfo : FetchOutcome VersionResponse → Except Error VersionResponse
  | FetchOutcome.transportErr =>
    Except.error (Error.context "Failed to load version information from staging.crates.io" ErrCause.transport)
  | FetchOutcome.statusErr =>
    Except.error (Error.context "Failed to load version information from staging.crates.io" ErrCause.httpStatus)
  | FetchOutcome.jsonErr =>
    Except.error (Error.context "Failed to deserialize version information" ErrCause.jsonShape)
  | FetchOutcome.ok j => Except.ok j

/-- The publish step (lines 83-159 of `main.rs`): create the temporary
directory, run `cargo new`, overwrite `Cargo.toml` and `README.md`, run
`cargo publish` with the token exposed into the child's environment.  The
temporary directory is owned by this scope, so every exit path — error or
success — ends with its removal (the `TempDir` drop).  Returns the error (if
any) together with the extended event trace and log lines. -/
def publishStep (o : Options) (env : Env) (old_version new_version : Version)
    (events : List Event) (logs : List String) :
    Option Error × List Event × List String :=
  let logs := logs ++
    ["old_version=" ++ versionStr old_version ++ " new_version=" ++
      versionStr new_version ++ " Calculated new version number",
     "Creating temporary working folder…",
     "tempdir.path=" ++ env.tempdirPath]
  let events := events ++ [Event.createTempDir]
  let logs := logs ++ ["Creating `" ++ o.crate_name ++ "` project…"]
  let events := events ++ [Event.runCargoNew o.crate_name]
  if env.cargoNewOk = false then
    (some (Error.bare "Failed to run `cargo new`"), events ++ [Event.removeTempDir], logs)
  else
    let project_path := env.tempdirPath ++ "/" ++ o.crate_name
    let logs := logs ++
      ["project_path=" ++ project_path,
       "manifest_path=" ++ project_path ++ "/Cargo.toml Overriding `Cargo.toml` file…"]
    let events := events ++ [Event.writeManifest (manifestContent o.crate_name new_version)]
    if env.manifestWriteOk = false then
      (some (Error.context "Failed to write `Cargo.toml` file content" ErrCause.ioErr),
       events ++ [Event.removeTempDir], logs)
    else
      let logs := logs ++
        ["readme_path=" ++ project_path ++ "/README.md Creating `README.md` file…"]
      let events := events ++ [Event.writeReadme (readmeContent o.crate_name new_version)]
      if env.readmeWriteOk = false then
        (some (Error.context "Failed to write `README.md` file content" ErrCause.ioErr),
         events ++ [Event.removeTempDir], logs)
      else
        let logs := logs ++ ["Publishing to staging.crates.io…"]
        let events := events ++ [Event.runCargoPublish o.token]
        if env.cargoPublishOk = false then
          (some (Error.bare "Failed to run `cargo publish`"), events ++ [Event.removeTempDir], logs)
        else
          (none, events ++ [Event.removeTempDir], logs)

/-- The post-publish verification (lines 161-210 of `main.rs`): GET the
version detail, then require the returned crate name to equal `crate_name`
(string equality) and the returned version number to equal the expected
`version` (structural `semver::Version` equality). -/
def postCheck (o : Options) (env : Env) (version : Version)
    (events : List Event) (logs : List String) : RunResult :=
  let logs := logs ++
    ["version=" ++ versionStr version ++ " Checking staging.crates.io API for the new version…",
     postUrl o version]
  let events := events ++ [Event.getVersionInfo (postUrl o version)]
  match fetchVersionInfo env.postFetch with
  | Except.error e => RunResult.mk (Outcome.err e) events logs
  | Except.ok json =>
    let logs := logs ++ [versionResponseDebugStr json]
    if json.version.krate ≠ o.crate_name then
      RunResult.mk
        (Outcome.err (Error.bare (crateNameMismatchMsg o.crate_name json.version.krate)))
        events logs
    else if json.version.num ≠ version then
      RunResult.mk
        (Outcome.err (Error.bare (versionMismatchMsg version json.version.num)))
        events logs
    else
      RunResult.mk Outcome.ok events logs

/-- The whole of `main` (lines 33-212 of `main.rs`): pre-check fetch, then
either skip the publish step (the post-check expectation stays the pre-check
`max_version`) or bump the patch and publish, then the post-check. -/
def run (o : Options) (env : Env) : RunResult :=
  let logs := [optionsDebugStr o,
               "Loading crate information from staging.crates.io…",
               preUrl o]
  let events := [Event.getCrateInfo (preUrl o)]
  match fetchCrateInfo env.preFetch with
  | Except.error e => RunResult.mk (Outcome.err e) events logs
  | Except.ok json =>
    let logs := logs ++ [crateResponseDebugStr json]
    let old_version := json.krate.max_version
    if o.skip_publish then
      postCheck o env old_version events (logs ++ ["Skipping publish step"])
    else
      match bumpPatch old_version with
      | none => RunResult.mk (Outcome.panicked "attempt to add with overflow") events logs
      | some new_version =>
        match publishStep o env old_version new_version events logs with
        | (some e, ev, lg) => RunResult.mk (Outcome.err e) ev lg
        | (none, ev, lg) => postCheck o env new_version ev lg

instance (a b : Version) : Decidable (versionLt a b) :=
  inferInstanceAs (Decidable (versionCompare a b = Ordering.lt))

/-- The default crate name (`--crate-name` default). -/
def sampleName : String := "crates-staging-test-tb"

/-- Sample pre-check version `0.1.0`. -/
def vOld : Version := Version.mk 0 1 0 [] []

/-- The patch bump of `vOld`: `0.1.1`. -/
def vNew : Version := Version.mk 0 1 1 [] []

/-- A pre-check response reporting `max_version = 0.1.0`. -/
def sampleCrateResp : CrateResponse := CrateResponse.mk (Crate.mk vOld)

/-- A matching post-check response for the publish path. -/
def okPostResp : VersionResponse := VersionResponse.mk (VersionData.mk sampleName vNew)

/-- A matching post-check response for the skip-publish path. -/
def okPostRespOld : VersionResponse := VersionResponse.mk (VersionData.mk sampleName vOld)

/-- A post-check response with the wrong crate name. -/
def badNamePostResp : VersionResponse := VersionResponse.mk (VersionData.mk "bar" vNew)

/-- A post-check response with the wrong version number. -/
def badVersionPostResp : VersionResponse := VersionResponse.mk (VersionData.mk sampleName vOld)

/-- Sample options with publishing enabled. -/
def sampleOptions : Options := Options.mk sampleName "secret-token" false

/-- Sample options with `--skip-publish`. -/
def sampleOptionsSkip : Options := Options.mk sampleName "secret-token" true

/-- An environment where every local step succeeds, parameterized by the
post-check response. -/
def sampleEnv (post : FetchOutcome VersionResponse) : Env :=
  Env.mk (FetchOutcome.ok sampleCrateResp) "/tmp/smoke" true true true true post

/-- An all-success environment with a matching post-check response. -/
def goodEnv : Env := sampleEnv (FetchOutcome.ok okPostResp)

/-- An environment where `cargo publish` exits non-zero. -/
def failPublishEnv : Env :=
  Env.mk (FetchOutcome.ok sampleCrateResp) "/tmp/smoke" true true true false
    (FetchOutcome.ok okPostResp)

theorem postCheck_events (o : Options) (env : Env) (version : Version)
    (events : List Event) (logs : List String) :
    (postCheck o env version events logs).events =
      events ++ [Event.getVersionInfo (postUrl o version)] := by
  cases hp : env.postFetch <;>
    simp [postCheck, fetchVersionInfo, hp, apply_ite RunResult.events]

/-- C6: for every valid semantic version, the version produced by the patch
bump is strictly greater under semantic-version ordering and has the same
major and minor components. -/
theorem bumpPatch_strictly_increases (v w : Version) (h : bumpPatch v = some w) :
    versionLt v w ∧ w.major = v.major ∧ w.minor = v.minor := by
  by_cases hp : v.patch < u64Max
  · rw [bumpPatch, if_pos hp] at h
    injection h with h
    subst h
    refine ⟨?_, rfl, rfl⟩
    show versionCompare v (Version.mk v.major v.minor (v.patch + 1) v.pre v.build) =
      Ordering.lt
    simp [versionCompare, natCompare, Nat.lt_irrefl, Nat.lt_succ_self]
  · rw [bumpPatch, if_neg hp] at h
    cases h

/-- Witness for C6 at `1.2.3 → 1.2.4`. -/
theorem bumpPatch_strictly_increases_witness :
    versionLt (Version.mk 1 2 3 [] []) (Version.mk 1 2 4 [] []) :=
  (bumpPatch_strictly_increases (Version.mk 1 2 3 [] []) (Version.mk 1 2 4 [] [])
    (by decide)).1

/-- C10: the patch bump is an unchecked `u64` addition: for every patch value
strictly below `u64::MAX` the new patch is exactly the old patch plus one (no
wraparound), and `patch = u64::MAX` is the only `u64` input on which the
computation is not total — the addition overflows (modelled as `none`)
instead of producing a descriptive error. -/
theorem bumpPatch_unchecked_add (v : Version) (hb : v.patch ≤ u64Max) :
    (v.patch < u64Max →
      bumpPatch v = some (Version.mk v.major v.minor (v.patch + 1) v.pre v.build)) ∧
    (bumpPatch v = none ↔ v.patch = u64Max) := by
  refine ⟨fun h => by rw [bumpPatch, if_pos h], ?_, ?_⟩
  · intro h
    by_cases hp : v.patch < u64Max
    · rw [bumpPatch, if_pos hp] at h
      cases h
    · exact Nat.le_antisymm hb (Nat.not_lt.mp hp)
  · intro h
    rw [bumpPatch, if_neg]
    rw [h]
    exact Nat.lt_irrefl u64Max

/-- Witness for C10 at `1.2.3`. -/
theorem bumpPatch_unchecked_add_witness :
    bumpPatch (Version.mk 1 2 3 [] []) = some (Version.mk 1 2 4 [] []) :=
  (bumpPatch_unchecked_add (Version.mk 1 2 3 [] []) (by decide)).1 (by decide)

/-- C3: when the post-check response's crate-name field differs from the
configured crate name under case-sensitive string equality, the verification
fails with an error whose message embeds both the expected and the actual
crate name, and does not report success. -/
theorem postCheck_name_mismatch_fails (o : Options) (env : Env) (version : Version)
    (events : List Event) (logs : List String) (pj : VersionResponse)
    (h1 : env.postFetch = FetchOutcome.ok pj)
    (h2 : pj.version.krate ≠ o.crate_name) :
    (postCheck o env version events logs).result =
      Outcome.err (Error.bare (crateNameMismatchMsg o.crate_name pj.version.krate)) ∧
    (postCheck o env version events logs).result ≠ Outcome.ok ∧
    (∃ a b c, crateNameMismatchMsg o.crate_name pj.version.krate =
      a ++ o.crate_name ++ b ++ pj.version.krate ++ c) := by
  have hr : (postCheck o env version events logs).result =
      Outcome.err (Error.bare (crateNameMismatchMsg o.crate_name pj.version.krate)) := by
    simp only [postCheck, fetchVersionInfo, h1]
    rw [if_pos h2]
  exact ⟨hr, by rw [hr]; exact fun hc => Outcome.noConfusion hc,
    ⟨"API returned an unexpected crate name; expected `", "` found `", "`", rfl⟩⟩

/-- Witness for C3: expected `crates-staging-test-tb`, API returns `bar`. -/
theorem postCheck_name_mismatch_fails_witness :
    (postCheck sampleOptions (sampleEnv (FetchOutcome.ok badNamePostResp)) vNew [] []).result =
      Outcome.err (Error.bare (crateNameMismatchMsg sampleOptions.crate_name
        badNamePostResp.version.krate)) :=
  (postCheck_name_mismatch_fails sampleOptions (sampleEnv (FetchOutcome.ok badNamePostResp))
    vNew [] [] badNamePostResp rfl (by decide)).1

/-- C4: the post-check compares the returned version number to the expected
one by structural semantic-version equality; a mismatch is a fatal error
whose message embeds both versions, and when both the crate name and the
version match, the run reports success (exit status 0). -/
theorem postCheck_version_equality (o : Options) (env : Env) (version : Version)
    (events : List Event) (logs : List String) (pj : VersionResponse)
    (h1 : env.postFetch = FetchOutcome.ok pj)
    (h2 : pj.version.krate = o.crate_name) :
    (pj.version.num ≠ version →
      (postCheck o env version events logs).result =
        Outcome.err (Error.bare (versionMismatchMsg version pj.version.num)) ∧
      (postCheck o env version events logs).result ≠ Outcome.ok ∧
      ∃ a b c, versionMismatchMsg version pj.version.num =
        a ++ versionStr version ++ b ++ versionStr pj.version.num ++ c) ∧
    (pj.version.num = version →
      (postCheck o env version events logs).result = Outcome.ok) := by
  constructor
  · intro h3
    have hr : (postCheck o env version events logs).result =
        Outcome.err (Error.bare (versionMismatchMsg version pj.version.num)) := by
      simp only [postCheck, fetchVersionInfo, h1]
      rw [if_neg (fun hc => hc h2), if_pos h3]
    exact ⟨hr, by rw [hr]; exact fun hc => Outcome.noConfusion hc,
      ⟨"API returned an unexpected version number; expected `", "` found `", "`", rfl⟩⟩
  · intro h3
    simp only [postCheck, fetchVersionInfo, h1]
    rw [if_neg (fun hc => hc h2), if_neg (fun hc => hc h3)]

/-- Witness for C4: a matching response yields success. -/
theorem postCheck_version_equality_witness :
    (postCheck sampleOptions (sampleEnv (FetchOutcome.ok okPostResp)) vNew [] []).result =
      Outcome.ok :=
  (postCheck_version_equality sampleOptions (sampleEnv (FetchOutcome.ok okPostResp))
    vNew [] [] okPostResp rfl rfl).2 rfl

/-- C7: in the registry read path, the three failure modes — transport
failure, non-success HTTP status, JSON shape mismatch — produce three
distinct error values for each fetch, with pairwise different surfaced
messages (the shared context string of the first two is disambiguated by the
underlying cause in the rendered chain), and each context names the step
being attempted. -/
theorem fetch_error_modes_distinct :
    (fetchCrateInfo FetchOutcome.transportErr = Except.error
      (Error.context "Failed to load crate information from staging.crates.io"
        ErrCause.transport)) ∧
    (fetchCrateInfo FetchOutcome.statusErr = Except.error
      (Error.context "Failed to load crate information from staging.crates.io"
        ErrCause.httpStatus)) ∧
    (fetchCrateInfo FetchOutcome.jsonErr = Except.error
      (Error.context "Failed to deserialize crate information" ErrCause.jsonShape)) ∧
    (fetchVersionInfo FetchOutcome.transportErr = Except.error
      (Error.context "Failed to load version information from staging.crates.io"
        ErrCause.transport)) ∧
    (fetchVersionInfo FetchOutcome.statusErr = Except.error
      (Error.context "Failed to load version information from staging.crates.io"
        ErrCause.httpStatus)) ∧
    (fetchVersionInfo FetchOutcome.jsonErr = Except.error
      (Error.context "Failed to deserialize version information" ErrCause.jsonShape)) ∧
    (List.Pairwise (fun e f => errorMessage e ≠ errorMessage f)
      [Error.context "Failed to load crate information from staging.crates.io"
        ErrCause.transport,
       Error.context "Failed to load crate information from staging.crates.io"
        ErrCause.httpStatus,
       Error.context "Failed to deserialize crate information" ErrCause.jsonShape]) ∧
    (List.Pairwise (fun e f => errorMessage e ≠ errorMessage f)
      [Error.context "Failed to load version information from staging.crates.io"
        ErrCause.transport,
       Error.context "Failed to load version information from staging.crates.io"
        ErrCause.httpStatus,
       Error.context "Failed to deserialize version information" ErrCause.jsonShape]) := by
  refine ⟨rfl, rfl, rfl, rfl, rfl, rfl, ?_, ?_⟩ <;> decide

/-- C1: on the publish path, the run writes a manifest whose `version = "…"`
line embeds the bumped version `w`, and the post-check GET targets
`/api/v1/crates/<crate_name>/<w>` — the same value `w` obtained by the single
patch bump of the pre-check `max_version`, never re-derived after
publishing. -/
theorem publish_manifest_and_postcheck_agree (o : Options) (env : Env)
    (json : CrateResponse) (w : Version)
    (h1 : env.preFetch = FetchOutcome.ok json)
    (h2 : o.skip_publish = false)
    (h3 : bumpPatch json.krate.max_version = some w)
    (h4 : env.cargoNewOk = true)
    (h5 : env.manifestWriteOk = true)
    (h6 : env.readmeWriteOk = true)
    (h7 : env.cargoPublishOk = true) :
    Event.writeManifest (manifestContent o.crate_name w) ∈ (run o env).events ∧
    Event.getVersionInfo (postUrl o w) ∈ (run o env).events ∧
    (∃ a b, manifestContent o.crate_name w =
      a ++ ("version = \"" ++ versionStr w ++ "\"") ++ b) ∧
    postUrl o w =
      "https://staging.crates.io/api/v1/crates/" ++ o.crate_name ++ "/" ++ versionStr w := by
  have hev : (run o env).events =
      [Event.getCrateInfo (preUrl o), Event.createTempDir,
       Event.runCargoNew o.crate_name,
       Event.writeManifest (manifestContent o.crate_name w),
       Event.writeReadme (readmeContent o.crate_name w),
       Event.runCargoPublish o.token, Event.removeTempDir,
       Event.getVersionInfo (postUrl o w)] := by
    simp [run, fetchCrateInfo, h1, h2, h3, publishStep, h4, h5, h6, h7, postCheck_events]
  refine ⟨?_, ?_, ?_, rfl⟩
  · rw [hev]; simp
  · rw [hev]; simp
  · refine ⟨"[package]\nname = \"" ++ o.crate_name ++ "\"\n",
      "\nedition = \"2018\"\nlicense = \"MIT\"\ndescription = \"test crate\"\n", ?_⟩
    have hL2 : ("\"\nversion = \"" : String) = "\"\n" ++ "version = \"" := by decide
    have hL3 : ("\"\nedition = \"2018\"\nlicense = \"MIT\"\ndescription = \"test crate\"\n" :
        String) =
        "\"" ++ "\nedition = \"2018\"\nlicense = \"MIT\"\ndescription = \"test crate\"\n" := by
      decide
    simp only [manifestContent]
    rw [hL2, hL3]
    simp only [String.append_assoc]

/-- Witness for C1: pre-check `0.1.0`, manifest and post-check both use
`0.1.1`. -/
theorem publish_manifest_and_postcheck_agree_witness :
    Event.writeManifest (manifestContent sampleOptions.crate_name vNew) ∈
      (run sampleOptions goodEnv).events ∧
    Event.getVersionInfo (postUrl sampleOptions vNew) ∈ (run sampleOptions goodEnv).events :=
  have h := publish_manifest_and_postcheck_agree sampleOptions goodEnv sampleCrateResp vNew
    rfl rfl (by decide) rfl rfl rfl rfl
  ⟨h.1, h.2.1⟩

/-- C2: with `--skip-publish`, the version handed to the post-check is
exactly the pre-check `max_version` (structural identity), and no publish
side effects occur: the trace is just the two GETs, and the run succeeds
exactly when the response matches the crate name and that very version. -/
theorem skip_publish_uses_old_version (o : Options) (env : Env) (json : CrateResponse)
    (h1 : env.preFetch = FetchOutcome.ok json)
    (h2 : o.skip_publish = true) :
    (run o env).events =
      [Event.getCrateInfo (preUrl o),
       Event.getVersionInfo (postUrl o json.krate.max_version)] ∧
    (∀ pj, env.postFetch = FetchOutcome.ok pj →
      ((run o env).result = Outcome.ok ↔
        (pj.version.krate = o.crate_name ∧ pj.version.num = json.krate.max_version))) := by
  constructor
  · simp [run, fetchCrateInfo, h1, h2, postCheck_events]
  · intro pj hp
    by_cases hk : pj.version.krate = o.crate_name
    · by_cases hn : pj.version.num = json.krate.max_version
      · simp [run, fetchCrateInfo, h1, h2, postCheck, fetchVersionInfo, hp, hk, hn]
      · simp [run, fetchCrateInfo, h1, h2, postCheck, fetchVersionInfo, hp, hk, hn]
    · simp [run, fetchCrateInfo, h1, h2, postCheck, fetchVersionInfo, hp, hk]

/-- Witness for C2: skip-publish run against a response that echoes the old
version succeeds. -/
theorem skip_publish_uses_old_version_witness :
    (run sampleOptionsSkip (sampleEnv (FetchOutcome.ok okPostRespOld))).result =
      Outcome.ok :=
  ((skip_publish_uses_old_version sampleOptionsSkip
      (sampleEnv (FetchOutcome.ok okPostRespOld)) sampleCrateResp rfl rfl).2
    okPostRespOld rfl).mpr ⟨rfl, rfl⟩

/-- C5: when `cargo publish` exits non-zero, the run fails with the publish
error and the post-check GET is never issued. -/
theorem publish_failure_blocks_postcheck (o : Options) (env : Env)
    (json : CrateResponse) (w : Version)
    (h1 : env.preFetch = FetchOutcome.ok json)
    (h2 : o.skip_publish = false)
    (h3 : bumpPatch json.krate.max_version = some w)
    (h4 : env.cargoNewOk = true)
    (h5 : env.manifestWriteOk = true)
    (h6 : env.readmeWriteOk = true)
    (h7 : env.cargoPublishOk = false) :
    (run o env).result = Outcome.err (Error.bare "Failed to run `cargo publish`") ∧
    ∀ u, Event.getVersionInfo u ∉ (run o env).events := by
  have hev : (run o env).events =
      [Event.getCrateInfo (preUrl o), Event.createTempDir,
       Event.runCargoNew o.crate_name,
       Event.writeManifest (manifestContent o.crate_name w),
       Event.writeReadme (readmeContent o.crate_name w),
       Event.runCargoPublish o.token, Event.removeTempDir] := by
    simp [run, fetchCrateInfo, h1, h2, h3, publishStep, h4, h5, h6, h7]
  constructor
  · simp [run, fetchCrateInfo, h1, h2, h3, publishStep, h4, h5, h6, h7]
  · intro u
    rw [hev]
    simp

/-- Witness for C5: a failing `cargo publish` yields the publish error. -/
theorem publish_failure_blocks_postcheck_witness :
    (run sampleOptions failPublishEnv).result =
      Outcome.err (Error.bare "Failed to run `cargo publish`") :=
  (publish_failure_blocks_postcheck sampleOptions failPublishEnv sampleCrateResp vNew
    rfl rfl (by decide) rfl rfl rfl rfl).1

/-- C8: noninterference of the secret token: two runs that differ only in
the token value emit identical log lines and produce identical outcomes
(including error messages), and their event traces agree once the token
payload handed to the `cargo publish` child process is scrubbed — that
environment variable is the token's only extraction point. -/
theorem token_noninterference (n t1 t2 : String) (s : Bool) (env : Env) :
    (run (Options.mk n t1 s) env).logs = (run (Options.mk n t2 s) env).logs ∧
    (run (Options.mk n t1 s) env).result = (run (Options.mk n t2 s) env).result ∧
    (run (Options.mk n t1 s) env).events.map scrubToken =
      (run (Options.mk n t2 s) env).events.map scrubToken := by
  rcases env with ⟨pre, tdp, cn, mw, rw0, cp, post⟩
  cases pre with
  | transportErr => simp [run, fetchCrateInfo, optionsDebugStr, preUrl]
  | statusErr => simp [run, fetchCrateInfo, optionsDebugStr, preUrl]
  | jsonErr => simp [run, fetchCrateInfo, optionsDebugStr, preUrl]
  | ok json =>
    cases s with
    | true =>
      cases post <;>
        simp [run, fetchCrateInfo, postCheck, fetchVersionInfo, optionsDebugStr,
          scrubToken, preUrl, postUrl]
    | false =>
      rcases hb : bumpPatch json.krate.max_version with _ | w
      · simp [run, fetchCrateInfo, hb, optionsDebugStr, preUrl]
      · cases cn <;> cases mw <;> cases rw0 <;> cases cp <;> cases post
        all_goals
          simp [run, fetchCrateInfo, publishStep, postCheck, fetchVersionInfo, hb,
            optionsDebugStr, scrubToken, preUrl, postUrl, manifestContent,
            readmeContent]
        all_goals try (split_ifs <;> simp [scrubToken])

/-- C9: every run that creates the temporary scaffold directory also removes
it before the process exits, on success and on every failure path. -/
theorem tempdir_removed (o : Options) (env : Env)
    (h : Event.createTempDir ∈ (run o env).events) :
    Event.removeTempDir ∈ (run o env).events := by
  rcases o with ⟨n, t, s⟩
  rcases env with ⟨pre, tdp, cn, mw, rw0, cp, post⟩
  cases pre with
  | transportErr => simp [run, fetchCrateInfo] at h
  | statusErr => simp [run, fetchCrateInfo] at h
  | jsonErr => simp [run, fetchCrateInfo] at h
  | ok json =>
    cases s with
    | true => simp [run, fetchCrateInfo, postCheck_events] at h
    | false =>
      rcases hb : bumpPatch json.krate.max_version with _ | w
      · simp [run, fetchCrateInfo, hb] at h
      · cases cn <;> cases mw <;> cases rw0 <;> cases cp <;>
          simp [run, fetchCrateInfo, publishStep, hb, postCheck_events]

/-- Witness for C9: on the all-success publish run the temporary directory is
created and removed. -/
theorem tempdir_removed_witness :
    Event.removeTempDir ∈ (run sampleOptions goodEnv).events :=
  tempdir_removed sampleOptions goodEnv (by decide)

end SmokeTest
